import Mathlib

/-
Verification of the NSP Intent Manager ("ibn") module of the
nokia.nsp Ansible collection (src/plugins/modules/ibn.py).

The module reconciles declarative "intents" and "intent-types" against a
remote RESTCONF controller.  We shallowly embed the module's pure logic:

* JSON documents are modelled by the mutual inductive `JVal`/`JArr`/`JObj`
  (Python dicts keep insertion order and have unique keys; `JObj` is the
  ordered association list of a parsed JSON object).
* Python standard-library collaborators that the module calls but that are
  not part of this repository (json.loads, json.dumps, str()/to_native
  rendering, urllib quote/unquote, bytes unicode-escape decoding) are
  abstracted as the record `PyLib`; every theorem holds for an arbitrary
  `PyLib`.
* The network is modelled by an explicit request trace (`Req` values, in
  issue order) together with a remote store (`RemoteStore`) holding the
  intents and the intent-type catalog entries; the store transitions are
  the evident RESTCONF resource semantics described in the specification
  (create on POST, overwrite on PUT/PATCH, remove on DELETE).  Transport
  faults for operations the code wraps in try/except are modelled by
  explicit outcome oracles; transport faults the code does not catch
  propagate out of the modelled handlers and are outside the embedding.
* `module.fail_json` terminates the module run; handlers therefore return
  `Except FailJson <result>` together with the request trace and the
  final remote store.
-/

/-! ## JSON values -/

mutual
inductive JVal where
  | null : JVal
  | bool (b : Bool) : JVal
  | num (n : Int) : JVal
  | str (s : String) : JVal
  | arr (xs : JArr) : JVal
  | obj (kvs : JObj) : JVal
deriving Repr

inductive JArr where
  | nil : JArr
  | cons (hd : JVal) (tl : JArr) : JArr
deriving Repr

inductive JObj where
  | nil : JObj
  | cons (key : String) (val : JVal) (tl : JObj) : JObj
deriving Repr
end

def JArr.ofList : List JVal → JArr
  | [] => .nil
  | x :: rest => .cons x (JArr.ofList rest)

def JArr.toList : JArr → List JVal
  | .nil => []
  | .cons x rest => x :: JArr.toList rest

def JObj.ofList : List (String × JVal) → JObj
  | [] => .nil
  | (k, v) :: rest => .cons k v (JObj.ofList rest)

def JObj.toList : JObj → List (String × JVal)
  | .nil => []
  | .cons k v rest => (k, v) :: JObj.toList rest

/-- Lookup of a key in a JSON object, modelling Python `dict.get(key)`. -/
def JObj.get : JObj → String → Option JVal
  | .nil, _ => none
  | .cons k v rest, key => if k == key then some v else JObj.get rest key

/-- Key assignment `d[key] = v`: Python dicts keep the position of an
existing key and append new keys at the end. -/
def JObj.set : JObj → String → JVal → JObj
  | .nil, key, v => .cons key v .nil
  | .cons k w rest, key, v =>
    if k == key then .cons k v rest else .cons k w (JObj.set rest key v)

/-- Membership of a key, modelling Python `key in d`. -/
def JObj.hasKey : JObj → String → Bool
  | .nil, _ => false
  | .cons k _ rest, key => k == key || JObj.hasKey rest key

/-- Key removal, modelling Python `d.pop(key, None)`. -/
def JObj.pop : JObj → String → JObj
  | .nil, _ => .nil
  | .cons k v rest, key => if k == key then JObj.pop rest key else .cons k v (JObj.pop rest key)

/-- Python `d.get(key)` on a value that may not be a dict (non-dicts have
no keys; call sites in the source always guard with `isinstance`). -/
def jget (v : JVal) (k : String) : Option JVal :=
  match v with
  | .obj kvs => kvs.get k
  | _ => none

/-- Python `d.get(key)` collapsing a missing key to JSON null (`None`). -/
def jgetD (v : JVal) (k : String) : JVal :=
  (jget v k).getD .null

/-- Python truthiness of a JSON value. -/
def jTruthy : JVal → Bool
  | .null => false
  | .bool b => b
  | .num n => n != 0
  | .str s => s != ""
  | .arr .nil => false
  | .arr _ => true
  | .obj .nil => false
  | .obj _ => true

/-- Python `a or b` on JSON values. -/
def pyOr (a b : JVal) : JVal := if jTruthy a then a else b

/-! ## Structural equality of JSON values (Python `==`)

Python `==` on parsed JSON is structural; `True == 1` and `False == 0`
hold, which is reflected below by canonicalising booleans to numbers in
`deep_sort_key` before comparing. -/

mutual
def JVal.beq : JVal → JVal → Bool
  | .null, .null => true
  | .bool a, .bool b => a == b
  | .num a, .num b => a == b
  | .str a, .str b => a == b
  | .arr a, .arr b => JArr.beq a b
  | .obj a, .obj b => JObj.beq a b
  | _, _ => false

def JArr.beq : JArr → JArr → Bool
  | .nil, .nil => true
  | .cons x xs, .cons y ys => JVal.beq x y && JArr.beq xs ys
  | _, _ => false

def JObj.beq : JObj → JObj → Bool
  | .nil, .nil => true
  | .cons k v t, .cons k2 v2 t2 => k == k2 && JVal.beq v v2 && JObj.beq t t2
  | _, _ => false
end

/-! ## DiffEngine: `_deep_sort_key` and `_config_equal` (ibn.py lines 336-349) -/

/-- Lexicographic code-point comparison of character lists, modelling
Python string `<=` (Python compares strings by code point). -/
def charListLe : List Char → List Char → Bool
  | [], _ => true
  | _ :: _, [] => false
  | a :: as, b :: bs =>
    if a.toNat < b.toNat then true
    else if b.toNat < a.toNat then false
    else charListLe as bs

/-- Python string `<=`. -/
def strLe (a b : String) : Bool := charListLe a.data b.data

/-- Stable insertion of one key/value pair into a key-sorted object,
used to model Python `sorted` on the list of `(key, sort_key(value))`
pairs: tuples are compared lexicographically, and since the keys of a
parsed dict are unique, the comparison is decided by the key alone. -/
def insertByKey (k : String) (v : JVal) : JObj → JObj
  | .nil => .cons k v .nil
  | .cons k2 v2 rest =>
    if strLe k2 k then .cons k2 v2 (insertByKey k v rest) else .cons k v (.cons k2 v2 rest)

/-- Sorting of an object's pairs by key (Python `sorted`, see `insertByKey`). -/
def sortByKey : JObj → JObj
  | .nil => .nil
  | .cons k v rest => insertByKey k v (sortByKey rest)

/-- Tuple-of-pairs view of a sorted object: Python `_deep_sort_key`
renders a dict as `tuple(sorted((k, _deep_sort_key(v)) ...))`, i.e. a
tuple whose elements are `(key, value)` 2-tuples. -/
def pairsArr : JObj → JArr
  | .nil => .nil
  | .cons k v rest => .cons (.arr (.cons (.str k) (.cons v .nil))) (pairsArr rest)

mutual
/-- Model of `_deep_sort_key` (ibn.py line 336): the canonical,
key-order-independent representation of a JSON document.  Dicts become
the key-sorted tuple of their `(key, canonical value)` pairs, lists keep
their order, booleans canonicalise to the numbers Python equates them
with (`True == 1`, `False == 0`), other scalars are themselves. -/
def deep_sort_key : JVal → JVal
  | .null => .null
  | .bool b => .num (if b then 1 else 0)
  | .num n => .num n
  | .str s => .str s
  | .arr xs => .arr (deep_sort_key_arr xs)
  | .obj kvs => .arr (pairsArr (sortByKey (deep_sort_key_obj kvs)))

def deep_sort_key_arr : JArr → JArr
  | .nil => .nil
  | .cons x rest => .cons (deep_sort_key x) (deep_sort_key_arr rest)

def deep_sort_key_obj : JObj → JObj
  | .nil => .nil
  | .cons k v rest => .cons k (deep_sort_key v) (deep_sort_key_obj rest)
end

/-- Model of `_config_equal` (ibn.py line 347): order-independent deep
equality of two intent config documents. -/
def config_equal (a b : JVal) : Bool :=
  JVal.beq (deep_sort_key a) (deep_sort_key b)

/-! ## External Python library collaborators

The module calls a handful of Python standard-library / Ansible-utility
functions that are not part of this repository.  They are abstracted as a
record; all theorems hold for every instantiation. -/

structure PyLib where
  /-- `json.loads`: `none` models a raised `ValueError`. -/
  loads : String → Option JVal
  /-- Python `str()` / `to_native` rendering of a non-string value. -/
  strOf : JVal → String
  /-- `json.dumps`. -/
  dumps : JVal → String
  /-- `bytes.decode("unicode_escape")`. -/
  unicodeUnescape : String → String
  /-- `urllib.parse.unquote`. -/
  unquote : String → String
  /-- `urllib.parse.quote(s, safe="")`. -/
  quote : String → String

/-- Python `str(v)` inside a format string: strings render as themselves. -/
def pyStr (py : PyLib) : JVal → String
  | .str s => s
  | v => py.strOf v

/-! ## RESTCONF path constants (ibn.py lines 22-27, 245-247, 312-314) -/

def RESTCONF_YANG_JSON : String := "application/yang-data+json"
def RESTCONF_JSON : String := "application/json"
def IBN_DATA : String := "/restconf/data/ibn:ibn"
def CATALOG_ROOT : String :=
  "/restconf/data/ibn-administration:ibn-administration/intent-type-catalog"
def SEARCH_INTENTS : String := "/restconf/operations/ibn:search-intents"
def VIEW_CONFIG : String := "/restconf/data/nsp-intent-type-config-store:intent-type-config"

/-- Model of `catalog_path` (ibn.py line 245); the version is formatted
into the path (`str` at the upload call site, `int` at the delete call
site, hence a string parameter here). -/
def catalog_path (intent_type vstr : String) : String :=
  CATALOG_ROOT ++ "/intent-type=" ++ intent_type ++ "," ++ vstr

/-- Model of `intent_path` (ibn.py line 312). -/
def intent_path (py : PyLib) (target intent_type : String) : String :=
  IBN_DATA ++ "/intent=" ++ py.quote target ++ "," ++ intent_type

/-! ## Error classification (ibn.py lines 269-309) -/

/-- A single-quote character, written via its code point. -/
def squote : String := String.mk [Char.ofNat 39]

/-- The Python byte-string repr prefix `b` followed by a single quote. -/
def bquote : String := "b" ++ squote

/-- Model of `is_restconf_error_response` (ibn.py line 305): a dict
carrying an `ietf-restconf:errors` or `errors` key. -/
def is_restconf_error_response (data : JVal) : Bool :=
  match data with
  | .obj kvs => kvs.hasKey "ietf-restconf:errors" || kvs.hasKey "errors"
  | _ => false

/-- Model of `_error_body_from_exception` (ibn.py line 292): strip the
exception text, unwrap a `b'...'` byte-string repr, then best-effort
`json.loads`. -/
def error_body_from_exception (py : PyLib) (err_str : String) : Option JVal :=
  if err_str == "" then none
  else
    let s := err_str.trim
    let s :=
      if s.startsWith bquote && s.endsWith squote then
        py.unicodeUnescape ((s.drop 2).dropRight 1)
      else s
    py.loads s

/-- The `errors` member of a RESTCONF error envelope:
`data.get("ietf-restconf:errors", data.get("errors")) or {}`
(ibn.py lines 254 and 281). -/
def restconfErrorsMember (data : JVal) : JVal :=
  let e :=
    match jget data "ietf-restconf:errors" with
    | some v => v
    | none => jgetD data "errors"
  if jTruthy e then e else .obj .nil

/-- The entry list of a RESTCONF error envelope (ibn.py lines 282-285):
a dict contributes its `error` list, a list contributes itself. -/
def restconfErrorList (data : JVal) : List JVal :=
  match restconfErrorsMember data with
  | .obj kvs =>
    match JObj.get kvs "error" with
    | some (.arr xs) => xs.toList
    | _ => []
  | .arr xs => xs.toList
  | _ => []

/-- First truthy `error-message` of the entries of an error envelope
(ibn.py lines 286-289). -/
def firstErrorMessage (data : JVal) : Option JVal :=
  (restconfErrorList data).findSome? fun item =>
    match item with
    | .obj kvs =>
      match JObj.get kvs "error-message" with
      | some v => if jTruthy v then some v else none
      | none => none
    | _ => none

/-- Model of `parse_restconf_error` (ibn.py line 269): extract the first
error message from a RESTCONF error envelope given as a parsed value or
as text (stripped, `b'...'`-unwrapped, then `json.loads`-parsed; if
parsing fails the transformed text itself is returned). -/
def parse_restconf_error (py : PyLib) (data : JVal) : Option JVal :=
  match data with
  | .str s =>
    let s1 := s.trim
    let s2 :=
      if s1.startsWith bquote && s1.endsWith squote then
        py.unicodeUnescape ((s1.drop 2).dropRight 1)
      else s1
    (match py.loads s2 with
     | none => some (.str s2)
     | some d =>
       match d with
       | .obj _ => firstErrorMessage d
       | _ => none)
  | .obj _ => firstErrorMessage data
  | _ => none

/-! ## OperationRunner (ibn.py lines 377-396) -/

/-- Outcome of one transport call: a parsed 2xx body, or a raised
exception carrying its textual message. -/
inductive TransportOut where
  | ok (body : JVal) : TransportOut
  | exn (msg : String) : TransportOut
deriving Repr

/-- Model of `_run_intent_operation` (ibn.py line 377) applied to the
transport outcome of the operation POST: normalise success and failure
into one result dict, never re-raising. -/
def run_intent_operation (py : PyLib) (t : TransportOut) : JVal :=
  match t with
  | .ok body =>
    if is_restconf_error_response body then
      .obj (JObj.ofList [("error", .str (py.strOf body)), ("restconf_errors", body)])
    else
      match body with
      | .obj _ => body
      | _ => .obj (JObj.ofList [("raw", body)])
  | .exn msg =>
    .obj (JObj.ofList
      [("error", .str msg),
       ("restconf_errors", (error_body_from_exception py msg).getD .null)])

/-- The caller-side check `op_result.get("error")` being truthy. -/
def opReportsError (opres : JVal) : Bool :=
  jTruthy (jgetD opres "error")

/-! ## fail_json payloads -/

/-- Payload of a `module.fail_json` call; only the keyword arguments the
ibn module actually passes are modelled. -/
structure FailJson where
  msg : String
  intent_type : Option String := none
  version : Option Int := none
  target : Option String := none
  operation : Option String := none
  sync_result : Option JVal := none
  audit_result : Option JVal := none
deriving Repr

/-- Model of `_fail_on_operation_error` (ibn.py line 352). -/
def fail_on_operation_error (py : PyLib) (operation target intent_type : String)
    (op_result : JVal) : FailJson :=
  let err_raw := (jget op_result "error").getD (.str "")
  let first := parse_restconf_error py err_raw
  let err_msg :=
    match first with
    | some v => if jTruthy v then some v else parse_restconf_error py (jgetD op_result "restconf_errors")
    | none => parse_restconf_error py (jgetD op_result "restconf_errors")
  let shown :=
    match err_msg with
    | some v => if jTruthy v then pyStr py v else pyStr py err_raw
    | none => pyStr py err_raw
  { msg := "IBN " ++ operation ++ " failed for intent " ++ intent_type ++ "/" ++ target
      ++ ": " ++ shown
    intent_type := some intent_type
    target := some target
    operation := some operation
    sync_result := if operation == "synchronize" then some op_result else none
    audit_result := if operation == "audit" then some op_result else none }

/-! ## Requests and the remote store -/

inductive Method where
  | get | post | put | patch | delete
deriving Repr, DecidableEq

/-- One remote call: HTTP method, RESTCONF path and (for writes carrying
one) the JSON body handed to `json.dumps` at the call site. -/
structure Req where
  method : Method
  path : String
  body : Option JVal
deriving Repr

/-- A request that modifies remote state (anything but a GET). -/
def isWrite (r : Req) : Bool := r.method != Method.get

/-- One intent held by the remote controller. -/
structure RemoteIntent where
  target : String
  intent_type : String
  version : Int
  config : JVal
  state : Option String
deriving Repr

/-- The remote controller state: the stored intents and the intent-type
catalog entries, keyed by (name, version). -/
structure RemoteStore where
  intents : List RemoteIntent
  catalog : List (String × Int)
deriving Repr

/-- Model of `intent_get` (ibn.py line 317) at the contract level of the
specification: the remote holds at most one intent per
(target, intent-type) and answers with its config document and its
`required-network-state` field (absent field modelled as `none`). -/
def intent_get (s : RemoteStore) (target intent_type : String) :
    Option (JVal × Option String) :=
  (s.intents.find? fun i => i.target == target && i.intent_type == intent_type).map
    fun i => (i.config, i.state)

/-- Remote effect of the intent create POST. -/
def addIntent (s : RemoteStore) (i : RemoteIntent) : RemoteStore :=
  { s with intents := s.intents ++ [i] }

/-- Remote effect of the config-only PUT on `.../intent-specific-data`. -/
def setIntentConfig (s : RemoteStore) (target intent_type : String) (cfg : JVal) :
    RemoteStore :=
  { s with intents := s.intents.map fun i =>
      if i.target == target && i.intent_type == intent_type then
        { i with config := cfg } else i }

/-- Remote effect of the state-only PATCH on the intent resource. -/
def setIntentState (s : RemoteStore) (target intent_type state : String) :
    RemoteStore :=
  { s with intents := s.intents.map fun i =>
      if i.target == target && i.intent_type == intent_type then
        { i with state := some state } else i }

/-- Remote effect of the intent DELETE. -/
def removeIntent (s : RemoteStore) (target intent_type : String) : RemoteStore :=
  { s with intents := s.intents.filter fun i =>
      !(i.target == target && i.intent_type == intent_type) }

/-- Existence of the catalog resource at `catalog_path intent_type vstr`
(the remote formats an entry's integer version into its path). -/
def catalogHasPath (s : RemoteStore) (intent_type vstr : String) : Bool :=
  s.catalog.any fun p => p.1 == intent_type && toString p.2 == vstr

/-- Remote effect of the catalog create POST / update PUT. -/
def putCatalog (s : RemoteStore) (intent_type : String) (v : Int) : RemoteStore :=
  if catalogHasPath s intent_type (toString v) then s
  else { s with catalog := s.catalog ++ [(intent_type, v)] }

/-- Remote effect of the catalog DELETE. -/
def removeCatalog (s : RemoteStore) (intent_type vstr : String) : RemoteStore :=
  { s with catalog := s.catalog.filter fun p =>
      !(p.1 == intent_type && toString p.2 == vstr) }

/-! ## Reconciler: `handle_add_intent` (ibn.py lines 399-468) -/

/-- The empty `{"ibn:input": {}}` envelope sent to audit/synchronize
(ibn.py line 381). -/
def opInputBody : JVal := .obj (JObj.ofList [("ibn:input", .obj .nil)])

/-- The full intent document POSTed on create (ibn.py lines 406-414). -/
def fullIntentBody (target intent_type : String) (version : Int) (config : JVal)
    (desired_state : String) : JVal :=
  .obj (JObj.ofList
    [("ibn:intent", .obj (JObj.ofList
      [("target", .str target),
       ("intent-type", .str intent_type),
       ("intent-type-version", .num version),
       ("ibn:intent-specific-data", config),
       ("required-network-state", .str desired_state)]))])

/-- Body of the config-only PUT (ibn.py line 428). -/
def configPutBody (config : JVal) : JVal :=
  .obj (JObj.ofList [("ibn:intent-specific-data", config)])

/-- Body of the state-only PATCH (ibn.py line 436). -/
def statePatchBody (desired_state : String) : JVal :=
  .obj (JObj.ofList
    [("ibn:intent", .obj (JObj.ofList [("required-network-state", .str desired_state)]))])

/-- Result payload of `module.exit_json` for `add_intent`
(ibn.py lines 447-453); `audit_result`/`sync_result` keys only appear
when the corresponding operation ran. -/
structure AddResult where
  target : String
  intent_type : String
  version : Int
  changed : Bool
  msg : String
  audit_result : Option JVal := none
  sync_result : Option JVal := none
deriving Repr

/-- The `perform` tail of `handle_add_intent` (ibn.py lines 454-468):
run the requested operation, record its result, and fail the whole call
when the operation result carries a truthy `error`. -/
def performStep (py : PyLib) (target intent_type : String) (perform : Option String)
    (opOutcome : String → TransportOut) (base : AddResult) :
    List Req × Except FailJson AddResult :=
  match perform with
  | some op =>
    let req : Req := ⟨.post, intent_path py target intent_type ++ "/" ++ op, some opInputBody⟩
    if op == "audit" then
      let opres := run_intent_operation py (opOutcome "audit")
      if opReportsError opres then
        ([req], .error (fail_on_operation_error py "audit" target intent_type opres))
      else
        ([req], .ok { base with audit_result := some opres })
    else if op == "synchronize" then
      let opres := run_intent_operation py (opOutcome "synchronize")
      if opReportsError opres then
        ([req], .error (fail_on_operation_error py "synchronize" target intent_type opres))
      else
        ([req], .ok { base with sync_result := some opres })
    else ([], .ok base)
  | none => ([], .ok base)

/-- Python `existing_state or "active"` (ibn.py line 423): a missing or
empty remote state field falls back to "active". -/
def stateOrActive : Option String → String
  | some s => if s != "" then s else "active"
  | none => "active"

/-- The read-then-write phase of `handle_add_intent` (ibn.py lines
403-445): create the intent if absent, otherwise write only the config
and/or state parts that differ.  Returns the requests, the resulting
remote store, the changed flag, and the message. -/
def addIntentWrites (py : PyLib) (store : RemoteStore) (target intent_type : String)
    (version : Int) (config : JVal) (desired_state : String) :
    List Req × RemoteStore × Bool × String :=
  let getReq : Req := ⟨.get, intent_path py target intent_type, none⟩
  match intent_get store target intent_type with
  | none =>
    ([getReq, ⟨.post, IBN_DATA, some (fullIntentBody target intent_type version config desired_state)⟩],
     addIntent store ⟨target, intent_type, version, config, some desired_state⟩,
     true, "Intent " ++ intent_type ++ "/" ++ target ++ " created")
  | some (existing_data, existing_state) =>
    let data_changed := !(config_equal existing_data config)
    let state_changed := stateOrActive existing_state != desired_state
    let changed := data_changed || state_changed
    let (reqs2, store2) :=
      if data_changed then
        ([(⟨.put, intent_path py target intent_type ++ "/intent-specific-data",
            some (configPutBody config)⟩ : Req)],
         setIntentConfig store target intent_type config)
      else ([], store)
    let (reqs3, store3) :=
      if state_changed then
        (reqs2 ++ [(⟨.patch, intent_path py target intent_type,
            some (statePatchBody desired_state)⟩ : Req)],
         setIntentState store2 target intent_type desired_state)
      else (reqs2, store2)
    let msg :=
      if !changed then "Intent " ++ intent_type ++ "/" ++ target ++ " unchanged"
      else "Intent " ++ intent_type ++ "/" ++ target ++ " updated"
    (getReq :: reqs3, store3, changed, msg)

/-- Model of `handle_add_intent` (ibn.py line 399): create the intent if
absent, otherwise write only the config and/or state parts that differ;
then optionally run audit/synchronize.  Returns the request trace, the
final remote store and the exit/fail payload. -/
def handle_add_intent (py : PyLib) (store : RemoteStore) (target intent_type : String)
    (version : Int) (config : JVal) (desired_state : String) (perform : Option String)
    (opOutcome : String → TransportOut) :
    List Req × RemoteStore × Except FailJson AddResult :=
  match addIntentWrites py store target intent_type version config desired_state with
  | (reqs1, store1, changed, msg) =>
    let base : AddResult :=
      { target := target, intent_type := intent_type, version := version,
        changed := changed, msg := msg }
    match performStep py target intent_type perform opOutcome base with
    | (reqsP, out) => (reqs1 ++ reqsP, store1, out)

/-! ## Reconciler: `handle_delete_intent` (ibn.py lines 471-506) -/

/-- Result payload of `module.exit_json` for `delete_intent`. -/
structure DelResult where
  target : String
  intent_type : String
  changed : Bool
  msg : String
deriving Repr

/-- Model of `handle_delete_intent` (ibn.py line 471): idempotent intent
deletion; with `remove_from_network` the desired state is first patched
to "delete" and a synchronize is run (failing the call on an operation
error) before the resource is deleted. -/
def handle_delete_intent (py : PyLib) (store : RemoteStore) (target intent_type : String)
    (remove_from_network : Bool) (syncOutcome : TransportOut) :
    List Req × RemoteStore × Except FailJson DelResult :=
  let getReq : Req := ⟨.get, intent_path py target intent_type, none⟩
  match intent_get store target intent_type with
  | none =>
    ([getReq], store,
     .ok ⟨target, intent_type, false,
       "Intent " ++ intent_type ++ "/" ++ target ++ " already absent"⟩)
  | some _ =>
    let step2 : List Req × RemoteStore × Option FailJson :=
      if remove_from_network then
        let patchReq : Req :=
          ⟨.patch, intent_path py target intent_type, some (statePatchBody "delete")⟩
        let store2 := setIntentState store target intent_type "delete"
        let opReq : Req :=
          ⟨.post, intent_path py target intent_type ++ "/synchronize", some opInputBody⟩
        let opres := run_intent_operation py syncOutcome
        if opReportsError opres then
          ([patchReq, opReq], store2,
           some (fail_on_operation_error py "synchronize" target intent_type opres))
        else ([patchReq, opReq], store2, none)
      else ([], store, none)
    match step2 with
    | (reqs2, store2, some fj) => (getReq :: reqs2, store2, .error fj)
    | (reqs2, store2, none) =>
      (getReq :: reqs2 ++ [⟨.delete, intent_path py target intent_type, none⟩],
       removeIntent store2 target intent_type,
       .ok ⟨target, intent_type, true,
         "Intent " ++ intent_type ++ "/" ++ target ++ " deleted"⟩)

/-! ## Reconciler: `handle_delete_intent_type` (ibn.py lines 655-729) -/

/-- The search filter body of ibn.py lines 671-680: one page request,
page-number 0, page-size 1000. -/
def searchBody (intent_type : String) (version : Int) : JVal :=
  .obj (JObj.ofList
    [("ibn:input", .obj (JObj.ofList
      [("filter", .obj (JObj.ofList
        [("config-required", .bool true),
         ("intent-type-list", .arr (JArr.ofList
           [.obj (JObj.ofList
             [("intent-type", .str intent_type),
              ("intent-type-version", .num version)])]))])),
       ("page-number", .num 0),
       ("page-size", .num 1000)]))])

/-- The remotely stored intents matching the search filter. -/
def matchingIntents (s : RemoteStore) (intent_type : String) (version : Int) :
    List RemoteIntent :=
  s.intents.filter fun i => i.intent_type == intent_type && i.version == version

/-- A search response envelope listing the given intents by target. -/
def mkSearchResponse (l : List RemoteIntent) : JVal :=
  .obj (JObj.ofList
    [("ibn:output", .obj (JObj.ofList
      [("intents", .obj (JObj.ofList
        [("intent", .arr (JArr.ofList (l.map fun i =>
          .obj (JObj.ofList [("target", .str i.target)]))))]))]))])

/-- Modelled from the spec: the remote `search-intents` operation is an
external collaborator ("a search operation accepting a structured filter
body (page number, page size, intent-type+version list) returning a page
of matching targets"); it answers the requested page of the intents
matching the filter. -/
def searchResponse (s : RemoteStore) (intent_type : String) (version : Int)
    (page pageSize : Nat) : JVal :=
  mkSearchResponse (((matchingIntents s intent_type version).drop (page * pageSize)).take pageSize)

/-- The target extraction of ibn.py lines 689-692: unwrap
`ibn:output`/`output`, `intents`/`intent`, the `intent` list, and keep
each entry's truthy `target`. -/
def parseSearchTargets (data : JVal) : List String :=
  let output := pyOr (jgetD data "ibn:output") (pyOr (jgetD data "output") (.obj .nil))
  let intents := pyOr (jgetD output "intents") (pyOr (jgetD output "intent") (.obj .nil))
  let intent_list :=
    match jget intents "intent" with
    | some (.arr xs) => xs.toList
    | _ => []
  intent_list.filterMap fun item =>
    match jget item "target" with
    | some (.str s) => if s != "" then some s else none
    | _ => none

/-- Result payload of `module.exit_json` for `delete_intent_type`. -/
structure DTResult where
  intent_type : String
  version : Int
  changed : Bool
  msg : String
deriving Repr

/-- The forced-cascade loop of ibn.py lines 703-713: delete each found
intent in turn, aborting with a fail_json on the first transport
exception.  `delOutcome target` is the exception text of the DELETE for
that target, `none` meaning success. -/
def deleteIntentsLoop (py : PyLib) (delOutcome : String → Option String)
    (intent_type : String) (version : Int) :
    List String → RemoteStore → List Req × RemoteStore × Option FailJson
  | [], s => ([], s, none)
  | tgt :: rest, s =>
    let req : Req := ⟨.delete, intent_path py tgt intent_type, none⟩
    match delOutcome tgt with
    | some e =>
      ([req], s,
       some { msg := "Failed to delete intent " ++ tgt ++ ": " ++ e,
              intent_type := some intent_type, version := some version })
    | none =>
      match deleteIntentsLoop py delOutcome intent_type version rest
          (removeIntent s tgt intent_type) with
      | (reqs, s2, f) => (req :: reqs, s2, f)

/-- Model of `handle_delete_intent_type` (ibn.py line 655), called with
`intent_type`/`version` parameters (the module always passes
`path=None`).  The search collaborator is modelled as answering from the
store (the source's except-branch turning a search transport fault into
an empty result is a transport fault, outside this embedding).  Searches
one page of intents of that exact version; with
intents present and no `force` it fails closed; with `force` it deletes
the found intents first (aborting on the first failure) and only then
the catalog entry.  `delCatalogOutcome` is the exception text of the
catalog DELETE, `none` meaning success. -/
def handle_delete_intent_type (py : PyLib) (store : RemoteStore) (intent_type : String)
    (version : Int) (force : Bool) (delOutcome : String → Option String)
    (delCatalogOutcome : Option String) :
    List Req × RemoteStore × Except FailJson DTResult :=
  let path_str := catalog_path intent_type (toString version)
  let getReq : Req := ⟨.get, path_str, none⟩
  if !catalogHasPath store intent_type (toString version) then
    ([getReq], store,
     .ok ⟨intent_type, version, true,
       "Intent-type " ++ intent_type ++ "_v" ++ toString version ++ " does not exist"⟩)
  else
    let searchReq : Req := ⟨.post, SEARCH_INTENTS, some (searchBody intent_type version)⟩
    let targets := parseSearchTargets (searchResponse store intent_type version 0 1000)
    if !targets.isEmpty && !force then
      ([getReq, searchReq], store,
       .error { msg := "Intent-type " ++ intent_type ++ "_v" ++ toString version
                  ++ " has " ++ toString targets.length
                  ++ " intent(s). Use force=true to delete them and the intent-type.",
                intent_type := some intent_type, version := some version })
    else
      match deleteIntentsLoop py delOutcome intent_type version targets store with
      | (delReqs, store2, some fj) =>
        (getReq :: searchReq :: delReqs, store2, .error fj)
      | (delReqs, store2, none) =>
        let catReq : Req := ⟨.delete, path_str, none⟩
        match delCatalogOutcome with
        | some e =>
          (getReq :: searchReq :: delReqs ++ [catReq], store2,
           .error { msg := "Failed to delete intent-type: " ++ e,
                    intent_type := some intent_type, version := some version })
        | none =>
          (getReq :: searchReq :: delReqs ++ [catReq],
           removeCatalog store2 intent_type (toString version),
           .ok ⟨intent_type, version, true,
             "Intent-type " ++ intent_type ++ "_v" ++ toString version ++ " deleted"⟩)

/-! ## BundleUploader: `handle_upload` (ibn.py lines 509-652)

The filesystem collaborator is external; a bundle directory is modelled
by the data it provides: the parsed `meta-info.json`, the optional
script files, and the optional sub-directories as lists of
(file name, content) in iteration order (`intents` files arrive parsed,
as `json.load` produces them). -/

structure Bundle where
  meta : JObj
  script_js : Option String
  script_mjs : Option String
  yang_dir : Option (List (String × String))
  resources_dir : Option (List (String × String))
  views_dir : Option (List (String × String))
  intents_dir : Option (List (String × JVal))
deriving Repr

/-- Python `str.strip()` over the character list (whitespace removal on
both ends). -/
def pyStrip (s : String) : String :=
  String.mk (((s.data.dropWhile Char.isWhitespace).reverse.dropWhile Char.isWhitespace).reverse)

/-- Characters of the decimal digits of a number read left to right;
`none` when a non-digit appears. -/
def digitsToNat (cs : List Char) : Option Nat :=
  match cs with
  | [] => none
  | _ =>
    cs.foldl
      (fun acc c =>
        match acc with
        | none => none
        | some n => if c.isDigit then some (n * 10 + (c.toNat - 48)) else none)
      (some 0)

/-- Python `int(str(v))` for the version value read from meta-info.json
(optional sign, decimal digits, surrounding whitespace allowed);
`none` models a raised ValueError. -/
def pyIntOfString (s : String) : Option Int :=
  match (pyStrip s).data with
  | [] => none
  | c :: rest =>
    if c = '-' then (digitsToNat rest).map fun n => -(n : Int)
    else if c = '+' then (digitsToNat rest).map fun n => (n : Int)
    else (digitsToNat (c :: rest)).map fun n => (n : Int)

/-- Python `str.startswith` over the character lists. -/
def strStartsWith (s p : String) : Bool := p.data.isPrefixOf s.data

/-- Python `str.endswith` over the character lists. -/
def strEndsWith (s p : String) : Bool := p.data.reverse.isPrefixOf s.data.reverse

/-- Python `Path.suffix`: the extension after the last dot of the name,
empty when the last dot is leading or trailing or absent. -/
def fileSuffix (s : String) : String :=
  let nm := s.data
  let ext := nm.reverse.takeWhile fun c => c ≠ '.'
  if ext.length == nm.length then ""
  else
    let i := nm.length - ext.length - 1
    if 0 < i ∧ i < nm.length - 1 then "." ++ String.mk ext.reverse else ""

/-- Basename of a relative path (resource dot-file filtering applies to
the file name, not the relative path). -/
def baseName (s : String) : String :=
  String.mk ((s.data.reverse.takeWhile fun c => c ≠ '/').reverse)

/-- ibn.py lines 563-566: entries of `targetted-device` that lack an
`index` member get their position as index. -/
def indexTargettedDevice (v : JVal) : JVal :=
  match v with
  | .arr xs => .arr (JArr.ofList ((xs.toList.enum).map fun p =>
      match p.2 with
      | .obj kvs => if kvs.hasKey "index" then .obj kvs else .obj (kvs.set "index" (.num p.1))
      | other => other))
  | other => other

/-- The local, pre-network phase of `handle_upload` (ibn.py lines
511-570 plus `get_intent_type_and_version_from_meta`, line 213): read
intent-type and version from the metadata, inline the script body, the
YANG modules and the resources, and normalise the metadata into the
catalog write payload.  Every failure here happens before any remote
call.  Returns (intent_type, version string, version int, payload). -/
def uploadLocalPhase (py : PyLib) (b : Bundle) :
    Except FailJson (String × String × Int × JObj) :=
  let itv := (b.meta.get "intent-type").getD .null
  if !jTruthy itv then
    .error { msg := "meta-info.json must contain " ++ squote ++ "intent-type" ++ squote }
  else
    match b.meta.get "version" with
    | none =>
      .error { msg := "meta-info.json must contain " ++ squote ++ "version" ++ squote }
    | some .null =>
      .error { msg := "meta-info.json must contain " ++ squote ++ "version" ++ squote }
    | some vv =>
      let intent_type := pyStr py itv
      let version_str := pyStr py vv
      let scriptRes : Except FailJson JObj :=
        match b.script_js with
        | some content => .ok (b.meta.set "script-content" (.str content))
        | none =>
          match b.script_mjs with
          | some content => .ok (b.meta.set "script-content" (.str content))
          | none =>
            .error { msg := "Neither script-content.js nor script-content.mjs found in bundle" }
      match scriptRes with
      | .error fj => .error fj
      | .ok meta1 =>
        match b.yang_dir with
        | none => .error { msg := "yang-modules directory not found in bundle" }
        | some yang_files =>
          let modules := (yang_files.filter fun f => !strStartsWith (baseName f.1) ".").map
            fun f => JVal.obj (JObj.ofList [("name", .str f.1), ("yang-content", .str f.2)])
          if modules.isEmpty then
            .error { msg := "No YANG files found in yang-modules in bundle" }
          else
            let meta2 := meta1.set "module" (.arr (JArr.ofList modules))
            let resources :=
              match b.resources_dir with
              | some res_files => (res_files.filter fun f => !strStartsWith (baseName f.1) ".").map
                  fun f => JVal.obj (JObj.ofList [("name", .str f.1), ("value", .str f.2)])
              | none => []
            let meta3 := meta2.set "resource" (.arr (JArr.ofList resources))
            let meta4 := (meta3.pop "resourceDirectory").pop "supported-hardware-types"
            let meta5 :=
              match meta4.get "custom-field" with
              | some (.str _) => meta4
              | some v => meta4.set "custom-field" (.str (py.dumps v))
              | none => meta4
            match pyIntOfString version_str with
            | none =>
              .error { msg := "IBN module error: invalid literal for int() on the meta version" }
            | some vint =>
              let meta6 := ((meta5.pop "intent-type").set "name" (.str intent_type)).set
                "version" (.num vint)
              let meta7 :=
                match meta6.get "targetted-device" with
                | some v => meta6.set "targetted-device" (indexTargettedDevice v)
                | none => meta6
              .ok (intent_type, version_str, vint, meta7)

/-- The body of one view PATCH (ibn.py lines 599-603). -/
def viewPatchBody (name content : String) : JVal :=
  let view : JVal := .obj (JObj.ofList [("name", .str name), ("viewconfig", .str content)])
  let entry : JVal := .obj (JObj.ofList [("views", .arr (JArr.ofList [view]))])
  .obj (JObj.ofList
    [("nsp-intent-type-config-store:intent-type-configs", .arr (JArr.ofList [entry]))])

/-- The intent upload loop of ibn.py lines 617-648: POST each parsed
intent file (create), falling back to a config-only PUT when the POST
raises.  `postFails target` models the POST raising for that target.
Returns the requests, the updated store and the uploaded count. -/
def uploadIntentsLoop (py : PyLib) (postFails : String → Bool)
    (intent_type version_str : String) (vint : Int) :
    List (String × JVal) → RemoteStore → List Req × RemoteStore × Nat
  | [], s => ([], s, 0)
  | (fname, cfg) :: rest, s =>
    let tgt := py.unquote (fname.dropRight 5)
    let body := .obj (JObj.ofList
      [("ibn:intent", .obj (JObj.ofList
        [("target", .str tgt),
         ("intent-type", .str intent_type),
         ("intent-type-version", .str version_str),
         ("ibn:intent-specific-data", cfg),
         ("required-network-state", .str "active")]))])
    let (reqs1, s1) :=
      if postFails tgt then
        ([(⟨Method.post, IBN_DATA, some body⟩ : Req),
          ⟨Method.put, intent_path py tgt intent_type ++ "/intent-specific-data",
            some (configPutBody cfg)⟩],
         setIntentConfig s tgt intent_type cfg)
      else
        ([(⟨Method.post, IBN_DATA, some body⟩ : Req)],
         addIntent s ⟨tgt, intent_type, vint, cfg, some "active"⟩)
    match uploadIntentsLoop py postFails intent_type version_str vint rest s1 with
    | (reqs2, s2, n) => (reqs1 ++ reqs2, s2, n + 1)

/-- Result payload of `module.exit_json` for `upload_intent_type`
(ibn.py line 652). -/
structure UploadResult where
  intent_type : String
  version : Int
  changed : Bool
  msg : String
deriving Repr

/-- Model of `handle_upload` (ibn.py line 509): validate and assemble
the bundle locally, create or update the catalog entry, then upload the
bundled views and intents.  Always exits with changed=True. -/
def handle_upload (py : PyLib) (store : RemoteStore) (b : Bundle)
    (postFails : String → Bool) :
    List Req × RemoteStore × Except FailJson UploadResult :=
  match uploadLocalPhase py b with
  | .error fj => ([], store, .error fj)
  | .ok (intent_type, version_str, vint, meta) =>
    let path_str := catalog_path intent_type version_str
    let body : JVal := .obj (JObj.ofList [("ibn-administration:intent-type", .obj meta)])
    let getReq : Req := ⟨.get, path_str, none⟩
    let step1 : List Req × RemoteStore × String :=
      if !catalogHasPath store intent_type version_str then
        ([getReq, ⟨.post, CATALOG_ROOT, some body⟩], putCatalog store intent_type vint,
         "Intent-type " ++ intent_type ++ "_v" ++ version_str ++ " created")
      else
        ([getReq, ⟨.put, path_str, some body⟩], store,
         "Intent-type " ++ intent_type ++ "_v" ++ version_str ++ " updated")
    match step1 with
    | (reqs1, store1, msg1) =>
      let view_url := VIEW_CONFIG ++ "/intent-type-configs=" ++ intent_type ++ "," ++ version_str
      let step2 : List Req × String :=
        match b.views_dir with
        | some files =>
          let view_files := files.filter fun f => strEndsWith f.1 ".viewConfig"
          (view_files.map fun f =>
            (⟨Method.patch, view_url, some (viewPatchBody (f.1.dropRight 11) f.2)⟩ : Req),
           if !view_files.isEmpty then
             msg1 ++ ", " ++ toString view_files.length ++ " view(s) uploaded"
           else msg1)
        | none => ([], msg1)
      match step2 with
      | (viewReqs, msg2) =>
        let step3 : List Req × RemoteStore × Nat :=
          match b.intents_dir with
          | some files =>
            uploadIntentsLoop py postFails intent_type version_str vint
              (files.filter fun f => fileSuffix f.1 == ".json") store1
          | none => ([], store1, 0)
        match step3 with
        | (intentReqs, store2, count) =>
          let msg3 :=
            if count > 0 then msg2 ++ ", " ++ toString count ++ " intent(s) uploaded"
            else msg2
          (reqs1 ++ viewReqs ++ intentReqs, store2, .ok ⟨intent_type, vint, true, msg3⟩)

/-! ## Concrete fixtures for evaluating the theorems -/

/-- A simple instantiation of the external Python library interface,
used only to evaluate theorems on concrete inputs. -/
def py0 : PyLib :=
  { loads := fun _ => none
    strOf := fun v =>
      match v with
      | .num n => toString n
      | .str s => s
      | _ => ""
    dumps := fun _ => ""
    unicodeUnescape := fun s => s
    unquote := fun s => s
    quote := fun s => s }

/-- The desired config of the specification's concrete scenario:
`{"iplink:iplink": {"admin-state": "enable"}}`. -/
def cfg0 : JVal :=
  .obj (JObj.ofList
    [("iplink:iplink", .obj (JObj.ofList [("admin-state", .str "enable")]))])

/-- An empty remote store. -/
def store0 : RemoteStore := ⟨[], []⟩

/-- A remote store holding the iplink v1 catalog entry and one intent. -/
def store1 : RemoteStore :=
  ⟨[⟨"cid001", "iplink", 1, cfg0, some "active"⟩], [("iplink", 1)]⟩

/-- A transport oracle that never fails. -/
def okOracle : String → TransportOut := fun _ => .ok (.obj .nil)

/-- A valid concrete bundle: iplink v1 metadata, a script, one YANG
module, no optional sub-directories. -/
def b0 : Bundle :=
  { meta := JObj.ofList [("intent-type", .str "iplink"), ("version", .num 1)]
    script_js := some "script"
    script_mjs := none
    yang_dir := some [("iplink.yang", "module iplink")]
    resources_dir := none
    views_dir := none
    intents_dir := none }

/-- The bundle `b0` with both recognized script files missing. -/
def b1 : Bundle :=
  { meta := JObj.ofList [("intent-type", .str "iplink"), ("version", .num 1)]
    script_js := none
    script_mjs := none
    yang_dir := some [("iplink.yang", "module iplink")]
    resources_dir := none
    views_dir := none
    intents_dir := none }

/-- The catalog write payload assembled from `b0`. -/
def meta0 : JObj :=
  JObj.ofList
    [("version", .num 1),
     ("script-content", .str "script"),
     ("module", .arr (JArr.ofList
       [.obj (JObj.ofList
         [("name", .str "iplink.yang"), ("yang-content", .str "module iplink")])])),
     ("resource", .arr (JArr.ofList [])),
     ("name", .str "iplink")]

/-! ## Reflexivity of the JSON equality and the DiffEngine equality -/

mutual
theorem JVal.beq_refl : (x : JVal) → JVal.beq x x = true
  | .null => rfl
  | .bool b => by simp [JVal.beq]
  | .num n => by simp [JVal.beq]
  | .str s => by simp [JVal.beq]
  | .arr xs => by simp [JVal.beq, JArr.beq_refl_arr xs]
  | .obj kvs => by simp [JVal.beq, JObj.beq_refl_obj kvs]

theorem JArr.beq_refl_arr : (x : JArr) → JArr.beq x x = true
  | .nil => rfl
  | .cons x xs => by simp [JArr.beq, JVal.beq_refl x, JArr.beq_refl_arr xs]

theorem JObj.beq_refl_obj : (x : JObj) → JObj.beq x x = true
  | .nil => rfl
  | .cons k v t => by simp [JObj.beq, JVal.beq_refl v, JObj.beq_refl_obj t]
end


theorem config_equal_refl (a : JVal) : config_equal a a = true := by
  simp [config_equal, JVal.beq_refl]

/-! ## Store lemmas -/

theorem find?_append_of_none {α} (p : α → Bool) (l₁ l₂ : List α) (h : l₁.find? p = none) :
    (l₁ ++ l₂).find? p = l₂.find? p := by
  induction l₁ with
  | nil => rfl
  | cons a l ih =>
    rw [List.find?_eq_none] at h
    rw [List.cons_append, List.find?_cons_of_neg]
    · exact ih (by rw [List.find?_eq_none]; intro x hx; exact h x (List.mem_cons_of_mem a hx))
    · simpa using h a (List.mem_cons_self a l)

theorem intent_get_addIntent_self (s : RemoteStore) (i : RemoteIntent)
    (h : intent_get s i.target i.intent_type = none) :
    intent_get (addIntent s i) i.target i.intent_type = some (i.config, i.state) := by
  unfold intent_get at h ⊢
  unfold addIntent
  rw [Option.map_eq_none'] at h
  simp only []
  rw [find?_append_of_none _ _ _ h, List.find?_cons_of_pos]
  · rfl
  · simp

theorem find?_setIntentConfig (l : List RemoteIntent) (t it : String) (c : JVal) :
    ((l.map fun i => if i.target == t && i.intent_type == it then { i with config := c } else i).find?
      fun i => i.target == t && i.intent_type == it)
    = (l.find? fun i => i.target == t && i.intent_type == it).map
        fun i => { i with config := c } := by
  induction l with
  | nil => rfl
  | cons x xs ih =>
    cases h : (x.target == t && x.intent_type == it) with
    | true =>
      rw [List.map_cons, if_pos h, List.find?_cons_of_pos, List.find?_cons_of_pos]
      · rfl
      · exact h
      · exact h
    | false =>
      rw [List.map_cons, if_neg (by simp [h]), List.find?_cons_of_neg, List.find?_cons_of_neg]
      · exact ih
      · simp [h]
      · simp [h]

theorem find?_setIntentState (l : List RemoteIntent) (t it st : String) :
    ((l.map fun i => if i.target == t && i.intent_type == it then { i with state := some st } else i).find?
      fun i => i.target == t && i.intent_type == it)
    = (l.find? fun i => i.target == t && i.intent_type == it).map
        fun i => { i with state := some st } := by
  induction l with
  | nil => rfl
  | cons x xs ih =>
    cases h : (x.target == t && x.intent_type == it) with
    | true =>
      rw [List.map_cons, if_pos h, List.find?_cons_of_pos, List.find?_cons_of_pos]
      · rfl
      · exact h
      · exact h
    | false =>
      rw [List.map_cons, if_neg (by simp [h]), List.find?_cons_of_neg, List.find?_cons_of_neg]
      · exact ih
      · simp [h]
      · simp [h]

theorem intent_get_setIntentConfig (s : RemoteStore) (t it : String) (c : JVal) :
    intent_get (setIntentConfig s t it c) t it
      = (intent_get s t it).map fun p => (c, p.2) := by
  unfold intent_get setIntentConfig
  rw [find?_setIntentConfig]
  cases (s.intents.find? fun i => i.target == t && i.intent_type == it) <;> simp

theorem intent_get_setIntentState (s : RemoteStore) (t it st : String) :
    intent_get (setIntentState s t it st) t it
      = (intent_get s t it).map fun p => (p.1, some st) := by
  unfold intent_get setIntentState
  rw [find?_setIntentState]
  cases (s.intents.find? fun i => i.target == t && i.intent_type == it) <;> simp

/-! ## Claim theorems -/

/-- C4: the DiffEngine equality is insensitive to mapping key order and
sensitive to sequence element order: `equal({a:1,b:2}, {b:2,a:1})` is
true and `equal([1,2], [2,1])` is false. -/
theorem C4_diff_engine_key_order_insensitive_seq_order_sensitive :
    config_equal (.obj (JObj.ofList [("a", .num 1), ("b", .num 2)]))
      (.obj (JObj.ofList [("b", .num 2), ("a", .num 1)])) = true ∧
    config_equal (.arr (JArr.ofList [.num 1, .num 2]))
      (.arr (JArr.ofList [.num 2, .num 1])) = false := by
  exact ⟨rfl, rfl⟩

/-- C5: on every pair of JSON values of arbitrary nesting and mixed
types the DiffEngine equality check returns a boolean (it is a total
function into `Bool`, so it cannot raise), and it never conflates the
empty mapping with null/absent: `equal({}, null)` is false (in both
argument orders). -/
theorem C5_diff_engine_total_and_empty_obj_not_null :
    (∀ a b : JVal, config_equal a b = true ∨ config_equal a b = false) ∧
    config_equal (.obj .nil) .null = false ∧
    config_equal .null (.obj .nil) = false := by
  refine ⟨fun a b => ?_, rfl, rfl⟩
  cases config_equal a b
  · exact Or.inr rfl
  · exact Or.inl rfl

/-- C8: the OperationRunner never re-raises a transport exception (it is
a total function from transport outcomes to result values) and always
returns a result dict; on transport success with an error-envelope body
the result has `error` set, and on a transport exception the result has
`error` set to the exception text and `restconf_errors` to the
best-effort parse of that text, so `.error` alone does not distinguish
the two failure sources. -/
theorem C8_operation_runner_never_raises_and_sets_error (py : PyLib) (body : JVal)
    (m : String) (henv : is_restconf_error_response body = true) :
    (∀ t : TransportOut, ∃ kvs, run_intent_operation py t = .obj kvs) ∧
    jget (run_intent_operation py (.ok body)) "error" = some (.str (py.strOf body)) ∧
    jget (run_intent_operation py (.exn m)) "error" = some (.str m) ∧
    jget (run_intent_operation py (.exn m)) "restconf_errors"
      = some ((error_body_from_exception py m).getD .null) := by
  refine ⟨fun t => ?_, ?_, ?_, ?_⟩
  · cases t with
    | ok b =>
      cases hb : is_restconf_error_response b with
      | true =>
        exact ⟨JObj.ofList [("error", .str (py.strOf b)), ("restconf_errors", b)],
          by simp [run_intent_operation, hb]⟩
      | false =>
        cases b with
        | obj kvs => exact ⟨kvs, by simp [run_intent_operation, hb]⟩
        | null => exact ⟨JObj.ofList [("raw", .null)], by simp [run_intent_operation, hb]⟩
        | bool x => exact ⟨JObj.ofList [("raw", .bool x)], by simp [run_intent_operation, hb]⟩
        | num x => exact ⟨JObj.ofList [("raw", .num x)], by simp [run_intent_operation, hb]⟩
        | str x => exact ⟨JObj.ofList [("raw", .str x)], by simp [run_intent_operation, hb]⟩
        | arr x => exact ⟨JObj.ofList [("raw", .arr x)], by simp [run_intent_operation, hb]⟩
    | exn msg =>
      exact ⟨JObj.ofList
        [("error", .str msg),
         ("restconf_errors", (error_body_from_exception py msg).getD .null)], rfl⟩
  · simp [run_intent_operation, henv, jget, JObj.ofList, JObj.get]
  · rfl
  · rfl

/-- Witness for C8 at a concrete error-envelope body and exception text. -/
theorem C8_witness :
    is_restconf_error_response (.obj (JObj.ofList [("errors", .obj .nil)])) = true ∧
    ((∀ t : TransportOut, ∃ kvs, run_intent_operation py0 t = .obj kvs) ∧
     jget (run_intent_operation py0 (.ok (.obj (JObj.ofList [("errors", .obj .nil)])))) "error"
       = some (.str (py0.strOf (.obj (JObj.ofList [("errors", .obj .nil)])))) ∧
     jget (run_intent_operation py0 (.exn "boom")) "error" = some (.str "boom") ∧
     jget (run_intent_operation py0 (.exn "boom")) "restconf_errors"
       = some ((error_body_from_exception py0 "boom").getD .null)) :=
  ⟨rfl, C8_operation_runner_never_raises_and_sets_error py0
    (.obj (JObj.ofList [("errors", .obj .nil)])) "boom" rfl⟩

/-- C6: deleting an intent whose (target, intent-type) is absent
remotely succeeds with changed=false after issuing only the existence
GET: no PATCH, no synchronize POST, no DELETE, and the remote store is
untouched. -/
theorem C6_delete_absent_intent_changed_false_no_writes (py : PyLib) (store : RemoteStore)
    (t it : String) (rfn : Bool) (syncOutcome : TransportOut)
    (habsent : intent_get store t it = none) :
    handle_delete_intent py store t it rfn syncOutcome
      = ([⟨Method.get, intent_path py t it, none⟩], store,
         .ok ⟨t, it, false, "Intent " ++ it ++ "/" ++ t ++ " already absent"⟩) := by
  unfold handle_delete_intent
  rw [habsent]

/-- Witness for C6 on the empty remote store. -/
theorem C6_witness :
    intent_get store0 "cid001" "iplink" = none ∧
    handle_delete_intent py0 store0 "cid001" "iplink" true (.ok .null)
      = ([⟨Method.get, intent_path py0 "cid001" "iplink", none⟩], store0,
         .ok ⟨"cid001", "iplink", false, "Intent " ++ "iplink" ++ "/" ++ "cid001" ++ " already absent"⟩) :=
  ⟨rfl, C6_delete_absent_intent_changed_false_no_writes py0 store0 "cid001" "iplink" true
    (.ok .null) rfl⟩

/-- C1: reconciling a desired intent whose (target, intent-type) is
absent remotely issues the existence GET followed by exactly one create
write — a POST of the full intent document — and succeeds with
changed=true; an identical second call against the resulting remote
state (config structurally equal, state field equal to the desired
state) issues the GET only — zero writes — and succeeds with
changed=false. -/
theorem C1_add_intent_create_then_idempotent (py : PyLib) (store : RemoteStore)
    (t it : String) (v : Int) (cfg : JVal) (ds : String)
    (oracle1 oracle2 : String → TransportOut)
    (habsent : intent_get store t it = none) (hds : ds ≠ "") :
    handle_add_intent py store t it v cfg ds none oracle1
      = ([⟨Method.get, intent_path py t it, none⟩,
          ⟨Method.post, IBN_DATA, some (fullIntentBody t it v cfg ds)⟩],
         addIntent store ⟨t, it, v, cfg, some ds⟩,
         .ok ⟨t, it, v, true, "Intent " ++ it ++ "/" ++ t ++ " created", none, none⟩) ∧
    [⟨Method.get, intent_path py t it, none⟩,
     ⟨Method.post, IBN_DATA, some (fullIntentBody t it v cfg ds)⟩].filter isWrite
      = [⟨Method.post, IBN_DATA, some (fullIntentBody t it v cfg ds)⟩] ∧
    handle_add_intent py (addIntent store ⟨t, it, v, cfg, some ds⟩) t it v cfg ds none oracle2
      = ([⟨Method.get, intent_path py t it, none⟩],
         addIntent store ⟨t, it, v, cfg, some ds⟩,
         .ok ⟨t, it, v, false, "Intent " ++ it ++ "/" ++ t ++ " unchanged", none, none⟩) ∧
    [⟨Method.get, intent_path py t it, none⟩].filter isWrite = ([] : List Req) := by
  have h2 : intent_get (addIntent store ⟨t, it, v, cfg, some ds⟩) t it = some (cfg, some ds) :=
    intent_get_addIntent_self store ⟨t, it, v, cfg, some ds⟩ habsent
  refine ⟨?_, rfl, ?_, rfl⟩
  · simp [handle_add_intent, addIntentWrites, habsent, performStep]
  · simp [handle_add_intent, addIntentWrites, h2, performStep, config_equal_refl,
      stateOrActive, hds]

/-- Witness for C1: the specification's concrete scenario (intent-type
iplink version 1, target cid001, the iplink admin-state config, desired
state active) against the empty remote store. -/
theorem C1_witness :
    intent_get store0 "cid001" "iplink" = none ∧
    ("active" : String) ≠ "" ∧
    (handle_add_intent py0 store0 "cid001" "iplink" 1 cfg0 "active" none okOracle
      = ([⟨Method.get, intent_path py0 "cid001" "iplink", none⟩,
          ⟨Method.post, IBN_DATA, some (fullIntentBody "cid001" "iplink" 1 cfg0 "active")⟩],
         addIntent store0 ⟨"cid001", "iplink", 1, cfg0, some "active"⟩,
         .ok ⟨"cid001", "iplink", 1, true, "Intent " ++ "iplink" ++ "/" ++ "cid001" ++ " created", none, none⟩) ∧
     [⟨Method.get, intent_path py0 "cid001" "iplink", none⟩,
      ⟨Method.post, IBN_DATA, some (fullIntentBody "cid001" "iplink" 1 cfg0 "active")⟩].filter isWrite
       = [⟨Method.post, IBN_DATA, some (fullIntentBody "cid001" "iplink" 1 cfg0 "active")⟩] ∧
     handle_add_intent py0 (addIntent store0 ⟨"cid001", "iplink", 1, cfg0, some "active"⟩)
        "cid001" "iplink" 1 cfg0 "active" none okOracle
      = ([⟨Method.get, intent_path py0 "cid001" "iplink", none⟩],
         addIntent store0 ⟨"cid001", "iplink", 1, cfg0, some "active"⟩,
         .ok ⟨"cid001", "iplink", 1, false, "Intent " ++ "iplink" ++ "/" ++ "cid001" ++ " unchanged", none, none⟩) ∧
     [⟨Method.get, intent_path py0 "cid001" "iplink", none⟩].filter isWrite = ([] : List Req)) :=
  ⟨rfl, by decide,
   C1_add_intent_create_then_idempotent py0 store0 "cid001" "iplink" 1 cfg0 "active"
     okOracle okOracle rfl (by decide)⟩

/-! ## Lemmas for the perform (audit/synchronize) tail -/

theorem performStep_none (py : PyLib) (t it : String) (oracle : String → TransportOut)
    (base : AddResult) : performStep py t it none oracle base = ([], .ok base) := rfl

theorem performStep_error (py : PyLib) (t it : String) (op : String)
    (oracle : String → TransportOut)
    (hop : op = "audit" ∨ op = "synchronize")
    (herr : opReportsError (run_intent_operation py (oracle op)) = true) :
    ∀ base : AddResult, performStep py t it (some op) oracle base
      = ([⟨Method.post, intent_path py t it ++ "/" ++ op, some opInputBody⟩],
         .error (fail_on_operation_error py op t it (run_intent_operation py (oracle op)))) := by
  intro base
  rcases hop with h | h <;> subst h <;> simp [performStep, herr]

theorem addIntentWrites_no_delete (py : PyLib) (store : RemoteStore) (t it : String)
    (v : Int) (cfg : JVal) (ds : String) :
    ∀ q ∈ (addIntentWrites py store t it v cfg ds).1, q.method ≠ Method.delete := by
  intro q hq
  unfold addIntentWrites at hq
  cases hg : intent_get store t it with
  | none =>
    rw [hg] at hq
    simp at hq
    rcases hq with rfl | rfl <;> simp
  | some p =>
    obtain ⟨e, st0⟩ := p
    rw [hg] at hq
    cases hdc : config_equal e cfg with
    | false =>
      cases hsc : stateOrActive st0 != ds with
      | false =>
        simp only [hdc, hsc] at hq; simp at hq
        rcases hq with rfl | rfl <;> simp
      | true =>
        simp only [hdc, hsc] at hq; simp at hq
        rcases hq with rfl | rfl | rfl <;> simp
    | true =>
      cases hsc : stateOrActive st0 != ds with
      | false =>
        simp only [hdc, hsc] at hq; simp at hq
        subst hq; simp
      | true =>
        simp only [hdc, hsc] at hq; simp at hq
        rcases hq with rfl | rfl <;> simp

theorem addIntentWrites_store_config (py : PyLib) (store : RemoteStore) (t it : String)
    (v : Int) (cfg : JVal) (ds : String) :
    ∃ cfg2 st, intent_get (addIntentWrites py store t it v cfg ds).2.1 t it
        = some (cfg2, st) ∧ config_equal cfg2 cfg = true := by
  unfold addIntentWrites
  cases hg : intent_get store t it with
  | none =>
    exact ⟨cfg, some ds,
      by simpa using intent_get_addIntent_self store ⟨t, it, v, cfg, some ds⟩ hg,
      config_equal_refl cfg⟩
  | some p =>
    obtain ⟨e, st0⟩ := p
    cases hdc : config_equal e cfg with
    | false =>
      cases hsc : stateOrActive st0 != ds with
      | false =>
        refine ⟨cfg, st0, ?_, config_equal_refl cfg⟩
        simp [hdc, hsc, intent_get_setIntentConfig, hg]
      | true =>
        refine ⟨cfg, some ds, ?_, config_equal_refl cfg⟩
        simp [hdc, hsc, intent_get_setIntentState, intent_get_setIntentConfig, hg]
    | true =>
      cases hsc : stateOrActive st0 != ds with
      | false => exact ⟨e, st0, by simp [hdc, hsc, hg], hdc⟩
      | true =>
        refine ⟨e, some ds, ?_, hdc⟩
        simp [hdc, hsc, intent_get_setIntentState, hg]

/-- C3: when a requested audit/synchronize reports an error after the
create/update writes succeeded, the whole add_intent call fails; nothing
is rolled back (the trace is exactly the write trace of the same call
without an operation plus the operation POST, the final store is the
post-write store, no DELETE is ever issued, and the intent still exists
remotely with a config structurally equal to the desired one); the
failure payload is the operation-error payload and carries the
operation's result dict. -/
theorem C3_operation_error_fails_without_rollback (py : PyLib) (store : RemoteStore)
    (t it : String) (v : Int) (cfg : JVal) (ds : String) (op : String)
    (oracle : String → TransportOut)
    (hop : op = "audit" ∨ op = "synchronize")
    (herr : opReportsError (run_intent_operation py (oracle op)) = true) :
    (handle_add_intent py store t it v cfg ds (some op) oracle).2.2
      = .error (fail_on_operation_error py op t it (run_intent_operation py (oracle op))) ∧
    (op = "audit" →
      (fail_on_operation_error py op t it (run_intent_operation py (oracle op))).audit_result
        = some (run_intent_operation py (oracle op))) ∧
    (op = "synchronize" →
      (fail_on_operation_error py op t it (run_intent_operation py (oracle op))).sync_result
        = some (run_intent_operation py (oracle op))) ∧
    (handle_add_intent py store t it v cfg ds (some op) oracle).1
      = (handle_add_intent py store t it v cfg ds none oracle).1
        ++ [⟨Method.post, intent_path py t it ++ "/" ++ op, some opInputBody⟩] ∧
    (handle_add_intent py store t it v cfg ds (some op) oracle).2.1
      = (handle_add_intent py store t it v cfg ds none oracle).2.1 ∧
    (∀ q ∈ (handle_add_intent py store t it v cfg ds (some op) oracle).1,
      q.method ≠ Method.delete) ∧
    (∃ cfg2 st, intent_get (handle_add_intent py store t it v cfg ds (some op) oracle).2.1 t it
        = some (cfg2, st) ∧ config_equal cfg2 cfg = true) := by
  rcases hw : addIntentWrites py store t it v cfg ds with ⟨reqs1, store1, changed, msg⟩
  have hsome : handle_add_intent py store t it v cfg ds (some op) oracle
      = (reqs1 ++ [⟨Method.post, intent_path py t it ++ "/" ++ op, some opInputBody⟩], store1,
         .error (fail_on_operation_error py op t it (run_intent_operation py (oracle op)))) := by
    unfold handle_add_intent
    rw [hw]
    simp only [performStep_error py t it op oracle hop herr]
  have hnone : handle_add_intent py store t it v cfg ds none oracle
      = (reqs1, store1, .ok ⟨t, it, v, changed, msg, none, none⟩) := by
    unfold handle_add_intent
    rw [hw]
    simp [performStep_none]
  refine ⟨by rw [hsome], ?_, ?_, by rw [hsome, hnone], by rw [hsome, hnone], ?_, ?_⟩
  · intro h; subst h; simp [fail_on_operation_error]
  · intro h; subst h; simp [fail_on_operation_error]
  · rw [hsome]
    intro q hq
    rcases List.mem_append.mp hq with hq | hq
    · exact addIntentWrites_no_delete py store t it v cfg ds q (by rw [hw]; exact hq)
    · simp at hq; subst hq; simp
  · rw [hsome]
    have h := addIntentWrites_store_config py store t it v cfg ds
    rw [hw] at h
    simpa using h

/-- Witness for C3: a synchronize whose transport raises with text
"boom" after a create against the empty store. -/
theorem C3_witness :
    (("synchronize" : String) = "audit" ∨ ("synchronize" : String) = "synchronize") ∧
    opReportsError (run_intent_operation py0 ((fun _ => TransportOut.exn "boom") "synchronize")) = true ∧
    ((handle_add_intent py0 store0 "cid001" "iplink" 1 cfg0 "active" (some "synchronize")
        (fun _ => TransportOut.exn "boom")).2.2
      = .error (fail_on_operation_error py0 "synchronize" "cid001" "iplink"
          (run_intent_operation py0 ((fun _ => TransportOut.exn "boom") "synchronize"))) ∧
     (("synchronize" : String) = "audit" →
       (fail_on_operation_error py0 "synchronize" "cid001" "iplink"
         (run_intent_operation py0 ((fun _ => TransportOut.exn "boom") "synchronize"))).audit_result
         = some (run_intent_operation py0 ((fun _ => TransportOut.exn "boom") "synchronize"))) ∧
     (("synchronize" : String) = "synchronize" →
       (fail_on_operation_error py0 "synchronize" "cid001" "iplink"
         (run_intent_operation py0 ((fun _ => TransportOut.exn "boom") "synchronize"))).sync_result
         = some (run_intent_operation py0 ((fun _ => TransportOut.exn "boom") "synchronize"))) ∧
     (handle_add_intent py0 store0 "cid001" "iplink" 1 cfg0 "active" (some "synchronize")
        (fun _ => TransportOut.exn "boom")).1
       = (handle_add_intent py0 store0 "cid001" "iplink" 1 cfg0 "active" none
           (fun _ => TransportOut.exn "boom")).1
         ++ [⟨Method.post, intent_path py0 "cid001" "iplink" ++ "/" ++ "synchronize", some opInputBody⟩] ∧
     (handle_add_intent py0 store0 "cid001" "iplink" 1 cfg0 "active" (some "synchronize")
        (fun _ => TransportOut.exn "boom")).2.1
       = (handle_add_intent py0 store0 "cid001" "iplink" 1 cfg0 "active" none
           (fun _ => TransportOut.exn "boom")).2.1 ∧
     (∀ q ∈ (handle_add_intent py0 store0 "cid001" "iplink" 1 cfg0 "active" (some "synchronize")
        (fun _ => TransportOut.exn "boom")).1, q.method ≠ Method.delete) ∧
     (∃ cfg2 st, intent_get (handle_add_intent py0 store0 "cid001" "iplink" 1 cfg0 "active"
          (some "synchronize") (fun _ => TransportOut.exn "boom")).2.1 "cid001" "iplink"
        = some (cfg2, st) ∧ config_equal cfg2 cfg0 = true)) :=
  ⟨Or.inr rfl, rfl,
   C3_operation_error_fails_without_rollback py0 store0 "cid001" "iplink" 1 cfg0 "active"
     "synchronize" (fun _ => TransportOut.exn "boom") (Or.inr rfl) rfl⟩

/-! ## Lemmas for intent-type deletion -/

theorem JArr.toList_ofList (l : List JVal) : (JArr.ofList l).toList = l := by
  induction l with
  | nil => rfl
  | cons x xs ih => simp [JArr.ofList, JArr.toList, ih]

theorem parse_mkSearchResponse (l : List RemoteIntent) :
    parseSearchTargets (mkSearchResponse l)
      = l.filterMap fun i => if i.target != "" then some i.target else none := by
  have key : ∀ m : List RemoteIntent,
      List.filterMap
          (fun item =>
            match jget item "target" with
            | some (.str s) => if s != "" then some s else none
            | _ => none)
          (m.map fun i => JVal.obj (JObj.cons "target" (JVal.str i.target) JObj.nil))
        = m.filterMap fun i => if i.target != "" then some i.target else none := by
    intro m
    induction m with
    | nil => rfl
    | cons x xs ih =>
      rw [List.map_cons, List.filterMap_cons, List.filterMap_cons, ih]
      rfl
  calc parseSearchTargets (mkSearchResponse l)
      = List.filterMap
          (fun item =>
            match jget item "target" with
            | some (.str s) => if s != "" then some s else none
            | _ => none)
          ((JArr.ofList (l.map fun i =>
            JVal.obj (JObj.cons "target" (JVal.str i.target) JObj.nil))).toList) := rfl
    _ = _ := by rw [JArr.toList_ofList]; exact key l

theorem searchTargets_nonempty (store : RemoteStore) (it : String) (v : Int)
    (hwf : ∀ i ∈ store.intents, i.target ≠ "")
    (hex : ∃ i ∈ store.intents, i.intent_type = it ∧ i.version = v) :
    parseSearchTargets (searchResponse store it v 0 1000) ≠ [] := by
  unfold searchResponse
  rw [parse_mkSearchResponse]
  obtain ⟨i, hi, hit, hv⟩ := hex
  have him : i ∈ matchingIntents store it v :=
    List.mem_filter.mpr ⟨hi, by simp [hit, hv]⟩
  cases hml : matchingIntents store it v with
  | nil => rw [hml] at him; exact absurd him (List.not_mem_nil i)
  | cons x xs =>
    have hx : x ∈ store.intents := by
      have hxm : x ∈ matchingIntents store it v := by
        rw [hml]; exact List.mem_cons_self x xs
      exact (List.mem_filter.mp hxm).1
    have hxt : x.target ≠ "" := hwf x hx
    rw [Nat.zero_mul, List.drop_zero,
      show (1000 : Nat) = 999 + 1 from rfl, List.take_succ_cons]
    simp [List.filterMap_cons, hxt]

theorem deleteIntentsLoop_all_ok (py : PyLib) (dO : String → Option String)
    (it : String) (v : Int) :
    ∀ (ts : List String) (s : RemoteStore), (∀ t ∈ ts, dO t = none) →
      ∃ s2, deleteIntentsLoop py dO it v ts s
        = (ts.map fun tg => ⟨Method.delete, intent_path py tg it, none⟩, s2, none) := by
  intro ts
  induction ts with
  | nil => exact fun s _ => ⟨s, rfl⟩
  | cons tg rest ih =>
    intro s h
    have htg : dO tg = none := h tg (List.mem_cons_self tg rest)
    obtain ⟨s2, h2⟩ := ih (removeIntent s tg it) fun x hx => h x (List.mem_cons_of_mem tg hx)
    exact ⟨s2, by simp [deleteIntentsLoop, htg, h2]⟩

theorem deleteIntentsLoop_abort (py : PyLib) (dO : String → Option String)
    (it : String) (v : Int) (bad e : String) (post : List String)
    (hbad : dO bad = some e) :
    ∀ (pre : List String) (s : RemoteStore), (∀ x ∈ pre, dO x = none) →
      ∃ s2, deleteIntentsLoop py dO it v (pre ++ bad :: post) s
        = ((pre.map fun tg => ⟨Method.delete, intent_path py tg it, none⟩)
            ++ [⟨Method.delete, intent_path py bad it, none⟩], s2,
           some { msg := "Failed to delete intent " ++ bad ++ ": " ++ e,
                  intent_type := some it, version := some v }) := by
  intro pre
  induction pre with
  | nil => exact fun s _ => ⟨s, by simp [deleteIntentsLoop, hbad]⟩
  | cons x rest ih =>
    intro s h
    obtain ⟨s2, h2⟩ := ih (removeIntent s x it) fun y hy => h y (List.mem_cons_of_mem x hy)
    exact ⟨s2, by simp [deleteIntentsLoop, h x (List.mem_cons_self x rest), h2]⟩

theorem deleteIntentsLoop_reqs_shape (py : PyLib) (dO : String → Option String)
    (it : String) (v : Int) :
    ∀ (ts : List String) (s : RemoteStore), ∀ q ∈ (deleteIntentsLoop py dO it v ts s).1,
      ∃ tg ∈ ts, q = ⟨Method.delete, intent_path py tg it, none⟩ := by
  intro ts
  induction ts with
  | nil => intro s q hq; simp [deleteIntentsLoop] at hq
  | cons tg rest ih =>
    intro s q hq
    unfold deleteIntentsLoop at hq
    cases hd : dO tg with
    | some e =>
      rw [hd] at hq
      simp at hq
      exact ⟨tg, List.mem_cons_self tg rest, hq⟩
    | none =>
      rw [hd] at hq
      rcases hl : deleteIntentsLoop py dO it v rest (removeIntent s tg it) with ⟨reqs, s2, f⟩
      rw [hl] at hq
      simp at hq
      rcases hq with rfl | hq
      · exact ⟨tg, List.mem_cons_self tg rest, rfl⟩
      · obtain ⟨tg2, htg2, rfl⟩ := ih (removeIntent s tg it) q (by rw [hl]; exact hq)
        exact ⟨tg2, List.mem_cons_of_mem tg htg2, rfl⟩

/-- C2: deleting an intent-type whose catalog entry exists while intents
of that exact (intent-type, version) exist remotely: with force=false the
call fails with a message carrying the count of found intents and issues
no DELETE at all; with force=true it deletes every found intent first
(aborting on the first intent-deletion failure, in which case the
catalog entry is never deleted) and only after all intent deletions does
it delete the catalog entry. -/
theorem C2_delete_intent_type_fail_closed_and_forced_cascade
    (py : PyLib) (store : RemoteStore) (it : String) (v : Int) (force : Bool)
    (delOutcome : String → Option String) (delCatalogOutcome : Option String)
    (hcat : catalogHasPath store it (toString v) = true)
    (hwf : ∀ i ∈ store.intents, i.target ≠ "")
    (hex : ∃ i ∈ store.intents, i.intent_type = it ∧ i.version = v) :
    (force = false →
      handle_delete_intent_type py store it v force delOutcome delCatalogOutcome
        = ([⟨Method.get, catalog_path it (toString v), none⟩,
            ⟨Method.post, SEARCH_INTENTS, some (searchBody it v)⟩], store,
           .error { msg := "Intent-type " ++ it ++ "_v" ++ toString v ++ " has "
                      ++ toString (parseSearchTargets (searchResponse store it v 0 1000)).length
                      ++ " intent(s). Use force=true to delete them and the intent-type.",
                    intent_type := some it, version := some v }) ∧
      (∀ q ∈ (handle_delete_intent_type py store it v force delOutcome delCatalogOutcome).1,
        q.method ≠ Method.delete)) ∧
    (force = true →
      (∀ tg ∈ parseSearchTargets (searchResponse store it v 0 1000), delOutcome tg = none) →
      (handle_delete_intent_type py store it v force delOutcome delCatalogOutcome).1
        = ⟨Method.get, catalog_path it (toString v), none⟩
          :: ⟨Method.post, SEARCH_INTENTS, some (searchBody it v)⟩
          :: ((parseSearchTargets (searchResponse store it v 0 1000)).map
                fun tg => ⟨Method.delete, intent_path py tg it, none⟩)
          ++ [⟨Method.delete, catalog_path it (toString v), none⟩]) ∧
    (force = true → ∀ pre bad post e,
      parseSearchTargets (searchResponse store it v 0 1000) = pre ++ bad :: post →
      (∀ x ∈ pre, delOutcome x = none) → delOutcome bad = some e →
      (handle_delete_intent_type py store it v force delOutcome delCatalogOutcome).1
        = ⟨Method.get, catalog_path it (toString v), none⟩
          :: ⟨Method.post, SEARCH_INTENTS, some (searchBody it v)⟩
          :: ((pre.map fun tg => ⟨Method.delete, intent_path py tg it, none⟩)
              ++ [⟨Method.delete, intent_path py bad it, none⟩]) ∧
      (handle_delete_intent_type py store it v force delOutcome delCatalogOutcome).2.2
        = .error { msg := "Failed to delete intent " ++ bad ++ ": " ++ e,
                   intent_type := some it, version := some v }) := by
  have htne := searchTargets_nonempty store it v hwf hex
  have hemp : (parseSearchTargets (searchResponse store it v 0 1000)).isEmpty = false := by
    cases hc : parseSearchTargets (searchResponse store it v 0 1000) with
    | nil => exact absurd hc htne
    | cons a l => rfl
  refine ⟨?_, ?_, ?_⟩
  · intro hforce
    subst hforce
    have heq : handle_delete_intent_type py store it v false delOutcome delCatalogOutcome
        = ([⟨Method.get, catalog_path it (toString v), none⟩,
            ⟨Method.post, SEARCH_INTENTS, some (searchBody it v)⟩], store,
           .error { msg := "Intent-type " ++ it ++ "_v" ++ toString v ++ " has "
                      ++ toString (parseSearchTargets (searchResponse store it v 0 1000)).length
                      ++ " intent(s). Use force=true to delete them and the intent-type.",
                    intent_type := some it, version := some v }) := by
      unfold handle_delete_intent_type
      rw [hcat]
      simp [hemp]
    refine ⟨heq, ?_⟩
    rw [heq]
    intro q hq
    simp at hq
    rcases hq with rfl | rfl <;> simp
  · intro hforce hall
    subst hforce
    obtain ⟨s2, hloop⟩ := deleteIntentsLoop_all_ok py delOutcome it v
      (parseSearchTargets (searchResponse store it v 0 1000)) store hall
    unfold handle_delete_intent_type
    rw [hcat]
    cases delCatalogOutcome <;> simp [hloop]
  · intro hforce pre bad post e hsplit hpre hbad
    subst hforce
    obtain ⟨s2, hloop⟩ := deleteIntentsLoop_abort py delOutcome it v bad e post hbad pre store hpre
    rw [← hsplit] at hloop
    constructor
    · unfold handle_delete_intent_type
      rw [hcat]
      simp [hloop]
    · unfold handle_delete_intent_type
      rw [hcat]
      simp [hloop]

/-- Witness for C2: intent-type iplink v1 with one existing intent
cid001, force=false. -/
theorem C2_witness :
    catalogHasPath store1 "iplink" (toString (1 : Int)) = true ∧
    (∀ i ∈ store1.intents, i.target ≠ "") ∧
    (∃ i ∈ store1.intents, i.intent_type = "iplink" ∧ i.version = 1) ∧
    ((false = false →
      handle_delete_intent_type py0 store1 "iplink" 1 false (fun _ => (none : Option String)) none
        = ([⟨Method.get, catalog_path "iplink" (toString (1 : Int)), none⟩,
            ⟨Method.post, SEARCH_INTENTS, some (searchBody "iplink" 1)⟩], store1,
           .error { msg := "Intent-type " ++ "iplink" ++ "_v" ++ toString (1 : Int) ++ " has "
                      ++ toString (parseSearchTargets (searchResponse store1 "iplink" 1 0 1000)).length
                      ++ " intent(s). Use force=true to delete them and the intent-type.",
                    intent_type := some "iplink", version := some 1 }) ∧
      (∀ q ∈ (handle_delete_intent_type py0 store1 "iplink" 1 false (fun _ => (none : Option String)) none).1,
        q.method ≠ Method.delete)) ∧
     (false = true →
      (∀ tg ∈ parseSearchTargets (searchResponse store1 "iplink" 1 0 1000), (fun _ => (none : Option String)) tg = none) →
      (handle_delete_intent_type py0 store1 "iplink" 1 false (fun _ => (none : Option String)) none).1
        = ⟨Method.get, catalog_path "iplink" (toString (1 : Int)), none⟩
          :: ⟨Method.post, SEARCH_INTENTS, some (searchBody "iplink" 1)⟩
          :: ((parseSearchTargets (searchResponse store1 "iplink" 1 0 1000)).map
                fun tg => ⟨Method.delete, intent_path py0 tg "iplink", none⟩)
          ++ [⟨Method.delete, catalog_path "iplink" (toString (1 : Int)), none⟩]) ∧
     (false = true → ∀ pre bad post e,
      parseSearchTargets (searchResponse store1 "iplink" 1 0 1000) = pre ++ bad :: post →
      (∀ x ∈ pre, (fun _ => (none : Option String)) x = none) → (fun _ => (none : Option String)) bad = some e →
      (handle_delete_intent_type py0 store1 "iplink" 1 false (fun _ => (none : Option String)) none).1
        = ⟨Method.get, catalog_path "iplink" (toString (1 : Int)), none⟩
          :: ⟨Method.post, SEARCH_INTENTS, some (searchBody "iplink" 1)⟩
          :: ((pre.map fun tg => ⟨Method.delete, intent_path py0 tg "iplink", none⟩)
              ++ [⟨Method.delete, intent_path py0 bad "iplink", none⟩]) ∧
      (handle_delete_intent_type py0 store1 "iplink" 1 false (fun _ => (none : Option String)) none).2.2
        = .error { msg := "Failed to delete intent " ++ bad ++ ": " ++ e,
                   intent_type := some "iplink", version := some 1 })) :=
  ⟨rfl,
   fun i hi => by simp [store1] at hi; subst hi; decide,
   ⟨⟨"cid001", "iplink", 1, cfg0, some "active"⟩, by simp [store1], rfl, rfl⟩,
   C2_delete_intent_type_fail_closed_and_forced_cascade py0 store1 "iplink" 1 false
     (fun _ => (none : Option String)) none rfl
     (fun i hi => by simp [store1] at hi; subst hi; decide)
     ⟨⟨"cid001", "iplink", 1, cfg0, some "active"⟩, by simp [store1], rfl, rfl⟩⟩

/-- Trace characterization of intent-type deletion when the catalog
entry exists: the GET, the single search POST, then only DELETE requests
for the catalog path or for a target of the searched first page. -/
theorem hdit_trace_shape (py : PyLib) (store : RemoteStore) (it : String) (v : Int)
    (force : Bool) (dO : String → Option String) (dC : Option String)
    (hcat : catalogHasPath store it (toString v) = true) :
    ∃ delReqs, (handle_delete_intent_type py store it v force dO dC).1
        = ⟨Method.get, catalog_path it (toString v), none⟩
          :: ⟨Method.post, SEARCH_INTENTS, some (searchBody it v)⟩ :: delReqs
      ∧ ∀ q ∈ delReqs, q = ⟨Method.delete, catalog_path it (toString v), none⟩
          ∨ ∃ tg ∈ parseSearchTargets (searchResponse store it v 0 1000),
              q = ⟨Method.delete, intent_path py tg it, none⟩ := by
  unfold handle_delete_intent_type
  rw [hcat]
  cases hcond : (!(parseSearchTargets (searchResponse store it v 0 1000)).isEmpty && !force) with
  | true =>
    refine ⟨[], by simp [hcond], by simp⟩
  | false =>
    rcases hloop : deleteIntentsLoop py dO it v
        (parseSearchTargets (searchResponse store it v 0 1000)) store with ⟨dr, s2, f⟩
    have hshape := deleteIntentsLoop_reqs_shape py dO it v
      (parseSearchTargets (searchResponse store it v 0 1000)) store
    rw [hloop] at hshape
    cases f with
    | some fj =>
      refine ⟨dr, by simp [hcond, hloop], ?_⟩
      intro q hq
      obtain ⟨tg, htg, rfl⟩ := hshape q hq
      exact Or.inr ⟨tg, htg, rfl⟩
    | none =>
      refine ⟨dr ++ [⟨Method.delete, catalog_path it (toString v), none⟩], ?_, ?_⟩
      · cases dC <;> simp [hcond, hloop]
      · intro q hq
        rcases List.mem_append.mp hq with hq | hq
        · obtain ⟨tg, htg, rfl⟩ := hshape q hq
          exact Or.inr ⟨tg, htg, rfl⟩
        · simp at hq
          subst hq
          exact Or.inl rfl

/-- C9: every intent-type deletion with an existing catalog entry issues
exactly one POST — the search — whose body requests page-number 0 and
page-size 1000; at most the first 1000 matching intents are counted
(the target list has length at most 1000, all drawn from the first page
of the matching intents), and every intent DELETE targets one of those
first-page targets (the only other DELETE being the catalog entry). -/
theorem C9_delete_intent_type_single_first_page_search (py : PyLib) (store : RemoteStore)
    (it : String) (v : Int) (force : Bool) (dO : String → Option String) (dC : Option String)
    (hcat : catalogHasPath store it (toString v) = true) :
    (handle_delete_intent_type py store it v force dO dC).1.filter
        (fun q => q.method == Method.post)
      = [⟨Method.post, SEARCH_INTENTS, some (searchBody it v)⟩] ∧
    jget (jgetD (searchBody it v) "ibn:input") "page-number" = some (.num 0) ∧
    jget (jgetD (searchBody it v) "ibn:input") "page-size" = some (.num 1000) ∧
    (parseSearchTargets (searchResponse store it v 0 1000)).length ≤ 1000 ∧
    (∀ tg ∈ parseSearchTargets (searchResponse store it v 0 1000),
      tg ∈ ((matchingIntents store it v).take 1000).map fun i => i.target) ∧
    (∀ q ∈ (handle_delete_intent_type py store it v force dO dC).1,
      q.method = Method.delete →
        q.path = catalog_path it (toString v)
        ∨ ∃ tg ∈ parseSearchTargets (searchResponse store it v 0 1000),
            q.path = intent_path py tg it) := by
  obtain ⟨delReqs, htr, hdel⟩ := hdit_trace_shape py store it v force dO dC hcat
  refine ⟨?_, rfl, rfl, ?_, ?_, ?_⟩
  · rw [htr]
    rw [List.filter_cons_of_neg (by simp), List.filter_cons_of_pos (by simp)]
    rw [List.filter_eq_nil_iff.mpr]
    intro q hq
    rcases hdel q hq with rfl | ⟨tg, _, rfl⟩ <;> simp
  · unfold searchResponse
    rw [parse_mkSearchResponse, Nat.zero_mul, List.drop_zero]
    exact le_trans (List.length_filterMap_le _ _) (List.length_take_le _ _)
  · intro tg htg
    unfold searchResponse at htg
    rw [parse_mkSearchResponse, Nat.zero_mul, List.drop_zero] at htg
    obtain ⟨i, hi, hf⟩ := List.mem_filterMap.mp htg
    by_cases hit : (i.target != "") = true
    · rw [if_pos hit] at hf
      obtain rfl := Option.some_injective _ hf
      exact List.mem_map.mpr ⟨i, hi, rfl⟩
    · rw [if_neg hit] at hf
      exact absurd hf (by simp)
  · intro q hq hqd
    rw [htr] at hq
    simp at hq
    rcases hq with rfl | rfl | hq
    · simp at hqd
    · simp at hqd
    · rcases hdel q hq with rfl | ⟨tg, htg, rfl⟩
      · exact Or.inl rfl
      · exact Or.inr ⟨tg, htg, rfl⟩

/-- Witness for C9: intent-type iplink v1 with one intent, force=true,
all deletions succeeding. -/
theorem C9_witness :
    catalogHasPath store1 "iplink" (toString (1 : Int)) = true ∧
    ((handle_delete_intent_type py0 store1 "iplink" 1 true (fun _ => none) none).1.filter
        (fun q => q.method == Method.post)
      = [⟨Method.post, SEARCH_INTENTS, some (searchBody "iplink" 1)⟩] ∧
     jget (jgetD (searchBody "iplink" 1) "ibn:input") "page-number" = some (.num 0) ∧
     jget (jgetD (searchBody "iplink" 1) "ibn:input") "page-size" = some (.num 1000) ∧
     (parseSearchTargets (searchResponse store1 "iplink" 1 0 1000)).length ≤ 1000 ∧
     (∀ tg ∈ parseSearchTargets (searchResponse store1 "iplink" 1 0 1000),
       tg ∈ ((matchingIntents store1 "iplink" 1).take 1000).map fun i => i.target) ∧
     (∀ q ∈ (handle_delete_intent_type py0 store1 "iplink" 1 true (fun _ => none) none).1,
       q.method = Method.delete →
         q.path = catalog_path "iplink" (toString (1 : Int))
         ∨ ∃ tg ∈ parseSearchTargets (searchResponse store1 "iplink" 1 0 1000),
             q.path = intent_path py0 tg "iplink")) :=
  ⟨rfl, C9_delete_intent_type_single_first_page_search py0 store1 "iplink" 1 true
    (fun _ => none) none rfl⟩

/-! ## Lemmas for the bundle uploader -/

theorem uploadLocalPhase_validation_error (py : PyLib) (b : Bundle)
    (h : (b.script_js = none ∧ b.script_mjs = none) ∨ b.yang_dir = none ∨
         ∃ fs, b.yang_dir = some fs ∧ (fs.filter fun f => !strStartsWith (baseName f.1) ".") = []) :
    ∀ r, uploadLocalPhase py b ≠ .ok r := by
  intro r hok
  unfold uploadLocalPhase at hok
  by_cases h1 : jTruthy ((JObj.get b.meta "intent-type").getD JVal.null)
  case neg => simp [h1] at hok
  case pos =>
    rcases h with ⟨hjs, hmjs⟩ | hyang | ⟨fs, hfs, hfilter⟩
    · cases hv : JObj.get b.meta "version" with
      | none => simp [h1, hv] at hok
      | some vv => cases vv <;> simp [h1, hv, hjs, hmjs] at hok
    · cases hv : JObj.get b.meta "version" with
      | none => simp [h1, hv] at hok
      | some vv =>
        cases vv <;> cases hjs : b.script_js <;> cases hmjs : b.script_mjs <;>
          simp [h1, hv, hjs, hmjs, hyang] at hok
    · cases hv : JObj.get b.meta "version" with
      | none => simp [h1, hv] at hok
      | some vv =>
        cases vv <;> cases hjs : b.script_js <;> cases hmjs : b.script_mjs <;>
          simp [h1, hv, hjs, hmjs, hfs, hfilter] at hok

/-- C7: a bundle missing both recognized script files, or whose
yang-modules directory is missing or holds no YANG files, fails before
any remote call: the request trace is empty, the remote store is
untouched, and the call ends in a fail_json. -/
theorem C7_upload_validation_fails_before_network (py : PyLib) (store : RemoteStore)
    (b : Bundle) (postFails : String → Bool)
    (h : (b.script_js = none ∧ b.script_mjs = none) ∨ b.yang_dir = none ∨
         ∃ fs, b.yang_dir = some fs ∧ (fs.filter fun f => !strStartsWith (baseName f.1) ".") = []) :
    (handle_upload py store b postFails).1 = [] ∧
    (handle_upload py store b postFails).2.1 = store ∧
    ∃ fj, (handle_upload py store b postFails).2.2 = .error fj := by
  rcases hl : uploadLocalPhase py b with fj | ok4
  · unfold handle_upload
    rw [hl]
    exact ⟨rfl, rfl, fj, rfl⟩
  · exact absurd hl (uploadLocalPhase_validation_error py b h ok4)

/-- Witness for C7: the bundle `b1`, which has no script file. -/
theorem C7_witness :
    ((b1.script_js = none ∧ b1.script_mjs = none) ∨ b1.yang_dir = none ∨
     ∃ fs, b1.yang_dir = some fs ∧ (fs.filter fun f => !strStartsWith (baseName f.1) ".") = []) ∧
    ((handle_upload py0 store0 b1 (fun _ => false)).1 = [] ∧
     (handle_upload py0 store0 b1 (fun _ => false)).2.1 = store0 ∧
     ∃ fj, (handle_upload py0 store0 b1 (fun _ => false)).2.2 = .error fj) :=
  ⟨Or.inl ⟨rfl, rfl⟩,
   C7_upload_validation_fails_before_network py0 store0 b1 (fun _ => false)
     (Or.inl ⟨rfl, rfl⟩)⟩

theorem handle_upload_ok_changed (py : PyLib) (store : RemoteStore) (b : Bundle)
    (pf : String → Bool) (r : UploadResult)
    (h : (handle_upload py store b pf).2.2 = .ok r) : r.changed = true := by
  unfold handle_upload at h
  rcases hl : uploadLocalPhase py b with fj | ok4
  · rw [hl] at h
    simp at h
  · obtain ⟨it2, vstr2, vint2, meta2⟩ := ok4
    rw [hl] at h
    repeat split at h
    all_goals first
      | (rw [← Except.ok.inj h])
      | (rw [← h])
      | simp_all

/-- C10: a successful upload always reports changed=true — the result of
every succeeding upload carries changed=true regardless of the remote
store — and when the catalog entry already exists the catalog PUT is
issued unconditionally (its body depends only on the bundle, never on
the remote catalog content: no diff is computed). -/
theorem C10_upload_always_changed_no_diff (py : PyLib) (store : RemoteStore) (b : Bundle)
    (postFails : String → Bool) (it vstr : String) (vint : Int) (meta : JObj)
    (hloc : uploadLocalPhase py b = .ok (it, vstr, vint, meta))
    (hcat : catalogHasPath store it vstr = true) :
    (∀ (store2 : RemoteStore) (u : UploadResult),
      (handle_upload py store2 b postFails).2.2 = .ok u → u.changed = true) ∧
    (∃ u, (handle_upload py store b postFails).2.2 = .ok u ∧ u.changed = true) ∧
    (⟨Method.put, catalog_path it vstr,
       some (.obj (JObj.ofList [("ibn-administration:intent-type", .obj meta)]))⟩ : Req)
      ∈ (handle_upload py store b postFails).1 := by
  refine ⟨fun store2 u h => handle_upload_ok_changed py store2 b postFails u h, ?_, ?_⟩
  · unfold handle_upload
    rw [hloc]
    simp only [hcat]
    repeat split
    all_goals exact ⟨_, rfl, rfl⟩
  · unfold handle_upload
    rw [hloc]
    simp only [hcat]
    repeat split
    all_goals simp_all

/-- Witness for C10: uploading the valid bundle `b0` against the store
that already holds the iplink v1 catalog entry. -/
theorem C10_witness :
    uploadLocalPhase py0 b0 = .ok ("iplink", "1", 1, meta0) ∧
    catalogHasPath store1 "iplink" "1" = true ∧
    ((∀ (store2 : RemoteStore) (u : UploadResult),
       (handle_upload py0 store2 b0 (fun _ => false)).2.2 = .ok u → u.changed = true) ∧
     (∃ u, (handle_upload py0 store1 b0 (fun _ => false)).2.2 = .ok u ∧ u.changed = true) ∧
     (⟨Method.put, catalog_path "iplink" "1",
        some (.obj (JObj.ofList [("ibn-administration:intent-type", .obj meta0)]))⟩ : Req)
       ∈ (handle_upload py0 store1 b0 (fun _ => false)).1) :=
  ⟨rfl, rfl, C10_upload_always_changed_no_diff py0 store1 b0 (fun _ => false) "iplink" "1" 1
    meta0 rfl rfl⟩
